import Mathlib

/-!
Verification of `RefreshLakehouseMetadata.py`.

The script has two components:

* `get_sql_endpoint_for_lakehouse` (the resolver): given a workspace's
  listing responses, it finds the lakehouse by exact display-name match,
  then resolves the companion SQL endpoint either through the direct
  `sqlEndpoints` listing (when it returns 200) or, as a fallback, through
  the generic `items` listing filtered to `type == "SQLEndpoint"`,
  applying name-match heuristics.

* `refresh_sql_endpoint_and_wait` (the orchestrator): it triggers the
  metadata refresh and, for an asynchronous start (202 with a Location
  header), polls the status URL while elapsed time is below
  `max_wait_minutes * 60` seconds, sleeping 30 seconds after each 202.

The embedding below models the HTTP world as explicit response data: a
`ResolverWorld` fixes the three listing responses the resolver may
request, and the orchestrator receives the trigger response plus a total
function from poll index to poll response.  Time is modelled by the loop
structure of the source: each poll is instantaneous and each
`time.sleep(30)` advances the clock by 30 seconds, so elapsed time before
poll number `k` is `30 * k` seconds, and the `while` guard
`elapsed < max_wait_minutes * 60` allows poll `k` exactly when
`30 * k < 60 * max_wait_minutes`, i.e. for `k < (2 * max_wait_minutes)`.
-/

/-- A resource descriptor as returned by the Fabric listing APIs:
`{id, displayName, type}`. -/
structure ResourceDescriptor where
  id : String
  displayName : String
  type : String
deriving DecidableEq, Repr

/-- A listing response: HTTP status, the `value` array of descriptors, and
the response body text (used in error messages). -/
structure ListingResponse where
  status : Nat
  value : List ResourceDescriptor
  text : String
deriving DecidableEq, Repr

/-- The three listing responses the resolver can observe for one run:
`GET .../lakehouses`, `GET .../sqlEndpoints`, `GET .../items`. -/
structure ResolverWorld where
  lakehouses : ListingResponse
  sqlEndpoints : ListingResponse
  items : ListingResponse
deriving DecidableEq, Repr

/-- Errors raised by `get_sql_endpoint_for_lakehouse` (each `raise
Exception(...)` in the source), carrying the same diagnostic payload as
the Python message. -/
inductive ResolveError where
  | lakehousesListFailed (status : Nat) (text : String)
  | notFound (lakehouseName : String) (available : List String)
  | itemsListFailed (status : Nat) (text : String)
  | noMatchingEndpoint (lakehouseName : String) (available : List String)
deriving DecidableEq, Repr

/-- Result of a resolution: the endpoint id, or the raised error. -/
inductive ResolveResult where
  | ok (id : String)
  | err (e : ResolveError)
deriving DecidableEq, Repr

/-- Requests issued by the resolver, in order, used to trace which APIs a
run consults. -/
inductive ApiCall where
  | lakehousesList
  | sqlEndpointsList
  | itemsList
deriving DecidableEq, Repr

/-- Check that `needle` occurs at the start of `haystack` (character
lists). -/
def charsStartsWith : List Char → List Char → Bool
  | [], _ => true
  | _ :: _, [] => false
  | a :: as, b :: bs => a == b && charsStartsWith as bs

/-- Check that `needle` occurs contiguously somewhere in `haystack`
(character lists); this is Python's `needle in haystack` on strings. -/
def charsContains : List Char → List Char → Bool
  | [], needle => needle.isEmpty
  | h :: t, needle => charsStartsWith needle (h :: t) || charsContains t needle

/-- Python's substring test `needle in haystack`. -/
def strContains (haystack needle : String) : Bool :=
  charsContains haystack.data needle.data

/-- Python's `str.lower()` (ASCII case folding, which covers every string
this program compares). -/
def strLower (s : String) : String :=
  ⟨s.data.map Char.toLower⟩

/-- Rule (a) of the fallback heuristic (source lines 63-68): the lowered
display name contains the lowered lakehouse name AND contains a marker
token, `"sql"` or `"analytics"`. -/
def fallbackMarkerMatch (lakehouse_name : String) (ep : ResourceDescriptor) : Bool :=
  let endpoint_name := strLower ep.displayName
  strContains endpoint_name (strLower lakehouse_name) &&
    (strContains endpoint_name "sql" || strContains endpoint_name "analytics")

/-- Rule (b) of the fallback heuristic (source lines 72-75):
case-insensitive exact equality of display name and lakehouse name. -/
def fallbackExactMatch (lakehouse_name : String) (ep : ResourceDescriptor) : Bool :=
  strLower ep.displayName == strLower lakehouse_name

/-- The relaxed rule of the direct-listing path (source lines 94-99):
case-insensitive substring match OR case-insensitive exact equality, in
one disjunction, with no marker-token requirement. -/
def directMatch (lakehouse_name : String) (ep : ResourceDescriptor) : Bool :=
  let endpoint_name := strLower ep.displayName
  strContains endpoint_name (strLower lakehouse_name) ||
    strLower ep.displayName == strLower lakehouse_name

/-- Endpoint selection on the fallback path: first marker-rule match in
listing order; only if there is none, first exact-equality match
(source lines 62-75, two sequential `for`/`break` loops). -/
def fallbackSelect (lakehouse_name : String) (eps : List ResourceDescriptor) :
    Option ResourceDescriptor :=
  match eps.find? (fallbackMarkerMatch lakehouse_name) with
  | some ep => some ep
  | none => eps.find? (fallbackExactMatch lakehouse_name)

/-- Endpoint selection on the direct-listing path: first match of the
relaxed rule in listing order (source lines 93-99, one `for`/`break`
loop). -/
def directSelect (lakehouse_name : String) (eps : List ResourceDescriptor) :
    Option ResourceDescriptor :=
  eps.find? (directMatch lakehouse_name)

/-- The candidate set searched on the direct path: the `value` array of
the `sqlEndpoints` listing (source line 86). -/
def directCandidates (w : ResolverWorld) : List ResourceDescriptor :=
  w.sqlEndpoints.value

/-- The candidate set searched on the fallback path: the `items` listing
client-side-filtered to `type == "SQLEndpoint"` (source line 54). -/
def fallbackCandidates (w : ResolverWorld) : List ResourceDescriptor :=
  w.items.value.filter (fun item => item.type == "SQLEndpoint")

/-- The resolver, `get_sql_endpoint_for_lakehouse` (source lines 6-108),
over an explicit world of listing responses.  The second component of the
result is the trace of listing requests issued, in order.  Control flow
mirrors the source: a non-200 `lakehouses` response raises; a missing
lakehouse raises with the available display names; a non-200
`sqlEndpoints` response is handled by falling back to the `items`
listing; the selected endpoint's `id` is returned. -/
def get_sql_endpoint_for_lakehouse (w : ResolverWorld) (lakehouse_name : String) :
    ResolveResult × List ApiCall :=
  if w.lakehouses.status ≠ 200 then
    (.err (.lakehousesListFailed w.lakehouses.status w.lakehouses.text), [.lakehousesList])
  else
    match w.lakehouses.value.find? (fun lh => lh.displayName == lakehouse_name) with
    | none =>
      (.err (.notFound lakehouse_name (w.lakehouses.value.map (fun lh => lh.displayName))),
        [.lakehousesList])
    | some _ =>
      if w.sqlEndpoints.status ≠ 200 then
        if w.items.status ≠ 200 then
          (.err (.itemsListFailed w.items.status w.items.text),
            [.lakehousesList, .sqlEndpointsList, .itemsList])
        else
          match fallbackSelect lakehouse_name (fallbackCandidates w) with
          | some ep => (.ok ep.id, [.lakehousesList, .sqlEndpointsList, .itemsList])
          | none =>
            (.err (.noMatchingEndpoint lakehouse_name
                ((fallbackCandidates w).map (fun ep => ep.displayName))),
              [.lakehousesList, .sqlEndpointsList, .itemsList])
      else
        match directSelect lakehouse_name (directCandidates w) with
        | some ep => (.ok ep.id, [.lakehousesList, .sqlEndpointsList])
        | none =>
          (.err (.noMatchingEndpoint lakehouse_name
              ((directCandidates w).map (fun ep => ep.displayName))),
            [.lakehousesList, .sqlEndpointsList])

/-- The trigger response of `POST .../refreshMetadata`: HTTP status, body
text, and the optional `Location` header. -/
structure TriggerResponse where
  status : Nat
  text : String
  location : Option String
deriving DecidableEq, Repr

/-- One status-poll response of `GET <status-location>`: HTTP status and
body text. -/
structure PollResponse where
  status : Nat
  text : String
deriving DecidableEq, Repr

/-- Errors raised by `refresh_sql_endpoint_and_wait` (each `raise
Exception(...)` in the source), carrying the same payload as the Python
message. -/
inductive RefreshError where
  | triggerFailed (status : Nat) (text : String)
  | pollFailed (status : Nat) (text : String)
  | refreshTimedOut (maxWaitMinutes : Int)
deriving DecidableEq, Repr

/-- Result of a refresh run: `ok true` models `return True`; `err` models
a raised exception. -/
inductive RefreshResult where
  | ok (b : Bool)
  | err (e : RefreshError)
deriving DecidableEq, Repr

/-- Outcome of the orchestrator together with instrumentation: how many
status-poll requests were issued and how many `time.sleep(30)` calls were
executed.  Each poll index is consulted at most once, so `pollsIssued`
also counts distinct polls (no poll is retried). -/
structure PollOutcome where
  result : RefreshResult
  pollsIssued : Nat
  sleepsDone : Nat
deriving DecidableEq, Repr

/-- The poll loop of the source (lines 146-158).  Elapsed time before
poll `k` is `30 * k` seconds (each iteration that stays pending executes
exactly one `time.sleep(30)`; polls themselves are instantaneous in this
model), so the `while` guard `time.time() - start_time < max_wait_seconds`
reads `30 * k < 60 * maxWaitMinutes`.  The `fuel` argument is only a
structural termination bound: the top-level call passes
`(2 * maxWaitMinutes).toNat`, which is exactly the number of `k` with
`30 * k < 60 * maxWaitMinutes`, so fuel reaches `0` precisely when the
guard is false and the `fuel = 0` branch coincides with the loop's
timeout exit (source line 158). -/
def pollLoop (polls : Nat → PollResponse) (maxWaitMinutes : Int) :
    Nat → Nat → PollOutcome
  | 0, k => ⟨.err (.refreshTimedOut maxWaitMinutes), k, k⟩
  | fuel + 1, k =>
    if (30 * k : Int) < 60 * maxWaitMinutes then
      if (polls k).status = 200 then ⟨.ok true, k + 1, k⟩
      else if (polls k).status = 202 then pollLoop polls maxWaitMinutes fuel (k + 1)
      else ⟨.err (.pollFailed (polls k).status (polls k).text), k + 1, k⟩
    else ⟨.err (.refreshTimedOut maxWaitMinutes), k, k⟩

/-- The orchestrator, `refresh_sql_endpoint_and_wait` (source lines
129-164), starting from the trigger response.  A 202 trigger without a
`Location` header returns success immediately (source lines 135-138); a
202 with a location enters the poll loop; a 200 trigger returns success
immediately (lines 160-162); anything else raises (lines 163-164).  The
trigger request itself is issued exactly once by construction: the
function consumes a single `TriggerResponse`. -/
def refresh_sql_endpoint_and_wait (trigger : TriggerResponse)
    (polls : Nat → PollResponse) (max_wait_minutes : Int) : PollOutcome :=
  if trigger.status = 202 then
    match trigger.location with
    | none => ⟨.ok true, 0, 0⟩
    | some _ => pollLoop polls max_wait_minutes (2 * max_wait_minutes).toNat 0
  else if trigger.status = 200 then ⟨.ok true, 0, 0⟩
  else ⟨.err (.triggerFailed trigger.status trigger.text), 0, 0⟩

/-- Poll stream used in the scenario tests: one pending answer, then
done. -/
def seq202200 : Nat → PollResponse :=
  fun k => if k = 0 then ⟨202, "pending"⟩ else ⟨200, "done"⟩

/-- Poll stream that never completes: every poll answers 202. -/
def all202 : Nat → PollResponse :=
  fun _ => ⟨202, "pending"⟩

/-- Poll stream whose first answer is already a server error. -/
def pollFail503 : Nat → PollResponse :=
  fun _ => ⟨503, "service unavailable"⟩

/-- The case-insensitive substring test used by the claims about the
matching rules: the lowered display name contains the lowered lakehouse
name. -/
def substringMatch (lakehouse_name : String) (ep : ResourceDescriptor) : Bool :=
  strContains (strLower ep.displayName) (strLower lakehouse_name)

/-- Statement that `e` is the first element of `l` (in listing order)
satisfying the boolean rule `p`: it occurs at some index `i`, satisfies
`p`, and every earlier element fails `p`. -/
def isFirstMatch {α : Type} (p : α → Bool) (l : List α) (e : α) : Prop :=
  ∃ i : Nat, l[i]? = some e ∧ p e = true ∧
    ∀ j : Nat, j < i → ∀ y, l[j]? = some y → p y = false

/-- Example world for the C1 scenario: the direct listing fails, and the
items listing offers the endpoints
`["foo - SQL analytics endpoint", "foo"]` for lakehouse `"foo"`. -/
def exampleFallbackWorld : ResolverWorld where
  lakehouses := ⟨200, [⟨"lh1", "foo", "Lakehouse"⟩], "ok"⟩
  sqlEndpoints := ⟨404, [], "unavailable"⟩
  items := ⟨200, [⟨"lh1", "foo", "Lakehouse"⟩,
    ⟨"ep1", "foo - SQL analytics endpoint", "SQLEndpoint"⟩,
    ⟨"ep2", "foo", "SQLEndpoint"⟩], "ok"⟩

/-- World whose only lakehouse is named `"bar"`, used to exercise the
`NotFound` branch for `resourceName = "foo"`. -/
def exampleNotFoundWorld : ResolverWorld where
  lakehouses := ⟨200, [⟨"lh1", "bar", "Lakehouse"⟩], "ok"⟩
  sqlEndpoints := ⟨200, [], "ok"⟩
  items := ⟨200, [], "ok"⟩

/-- Direct-path world: the `sqlEndpoints` listing succeeds and offers the
single endpoint `"foobar"`, which contains `"foo"` as a substring but has
no marker token and is not equal to `"foo"`. -/
def c9DirectWorld : ResolverWorld where
  lakehouses := ⟨200, [⟨"lh1", "foo", "Lakehouse"⟩], "ok"⟩
  sqlEndpoints := ⟨200, [⟨"ep1", "foobar", "SQLEndpoint"⟩], "ok"⟩
  items := ⟨200, [⟨"ep1", "foobar", "SQLEndpoint"⟩], "ok"⟩

/-- Fallback-path world describing exactly the same resources as
`c9DirectWorld`: the direct listing fails, and the items listing carries
the same single endpoint `"foobar"`. -/
def c9FallbackWorld : ResolverWorld where
  lakehouses := ⟨200, [⟨"lh1", "foo", "Lakehouse"⟩], "ok"⟩
  sqlEndpoints := ⟨404, [], "unavailable"⟩
  items := ⟨200, [⟨"ep1", "foobar", "SQLEndpoint"⟩], "ok"⟩

/-- Direct-path world whose endpoint listing is
`["foo sql a", "foo sql b"]`: two candidates both satisfy the matching
rules, exercising the first-match-wins tie-break. -/
def exampleTieWorld : ResolverWorld where
  lakehouses := ⟨200, [⟨"lh1", "foo", "Lakehouse"⟩], "ok"⟩
  sqlEndpoints := ⟨200, [⟨"epA", "foo sql a", "SQLEndpoint"⟩,
    ⟨"epB", "foo sql b", "SQLEndpoint"⟩], "ok"⟩
  items := ⟨200, [], "ok"⟩

/-!
Helper lemmas: `List.find?` computes the first match in listing order,
the string primitives behave as expected, and the resolver reduces to its
per-path selection on each control path.
-/

theorem pollLoop_zero (polls : Nat → PollResponse) (m : Int) (k : Nat) :
    pollLoop polls m 0 k = ⟨.err (.refreshTimedOut m), k, k⟩ := rfl

theorem pollLoop_succ (polls : Nat → PollResponse) (m : Int) (fuel k : Nat) :
    pollLoop polls m (fuel + 1) k =
      if (30 * k : Int) < 60 * m then
        if (polls k).status = 200 then ⟨.ok true, k + 1, k⟩
        else if (polls k).status = 202 then pollLoop polls m fuel (k + 1)
        else ⟨.err (.pollFailed (polls k).status (polls k).text), k + 1, k⟩
      else ⟨.err (.refreshTimedOut m), k, k⟩ := rfl

theorem find?_isFirstMatch {α : Type} (p : α → Bool) :
    ∀ (l : List α) (a : α), l.find? p = some a → isFirstMatch p l a := by
  intro l
  induction l with
  | nil => intro a h; simp [List.find?] at h
  | cons x xs ih =>
    intro a h
    by_cases hx : p x = true
    · rw [List.find?_cons_of_pos _ hx] at h
      cases h
      exact ⟨0, List.getElem?_cons_zero, hx, fun j hj => absurd hj (by omega)⟩
    · have hx' : p x = false := by
        cases hpx : p x
        · rfl
        · exact absurd hpx hx
      rw [List.find?_cons_of_neg _ (by simp [hx'])] at h
      obtain ⟨i, hi, hpa, hbefore⟩ := ih a h
      refine ⟨i + 1, by simpa using hi, hpa, ?_⟩
      intro j hj y hy
      cases j with
      | zero =>
        rw [List.getElem?_cons_zero] at hy
        cases hy
        exact hx'
      | succ j' =>
        rw [List.getElem?_cons_succ] at hy
        exact hbefore j' (by omega) y hy

theorem find?_of_exists {α : Type} (p : α → Bool) (l : List α)
    (h : ∃ x ∈ l, p x = true) : ∃ a, l.find? p = some a := by
  have : (l.find? p).isSome := List.find?_isSome.mpr (by simpa using h)
  exact Option.isSome_iff_exists.mp this

theorem charsStartsWith_refl : ∀ l : List Char, charsStartsWith l l = true := by
  intro l
  induction l with
  | nil => rfl
  | cons a as ih => simp [charsStartsWith, ih]

theorem strContains_self (s : String) : strContains s s = true := by
  unfold strContains
  cases h : s.data with
  | nil => rfl
  | cons c cs =>
    show charsContains (c :: cs) (c :: cs) = true
    unfold charsContains
    rw [charsStartsWith_refl]
    rfl

theorem fallbackExactMatch_imp_substring (n : String) (e : ResourceDescriptor)
    (h : fallbackExactMatch n e = true) : substringMatch n e = true := by
  unfold fallbackExactMatch at h
  have heq : strLower e.displayName = strLower n := eq_of_beq h
  unfold substringMatch
  rw [heq]
  exact strContains_self _

theorem directMatch_eq_substringMatch (n : String) (e : ResourceDescriptor) :
    directMatch n e = substringMatch n e := by
  unfold directMatch substringMatch
  by_cases h : strLower e.displayName == strLower n
  · have heq : strLower e.displayName = strLower n := eq_of_beq h
    rw [heq]
    simp [strContains_self]
  · simp only [Bool.or_eq_true]
    by_cases hs : strContains (strLower e.displayName) (strLower n) = true
    · simp [hs]
    · simp [hs, h]


theorem resolve_lakehouses_failed (w : ResolverWorld) (n : String)
    (h1 : w.lakehouses.status ≠ 200) :
    get_sql_endpoint_for_lakehouse w n =
      (.err (.lakehousesListFailed w.lakehouses.status w.lakehouses.text),
        [.lakehousesList]) := by
  unfold get_sql_endpoint_for_lakehouse
  rw [if_pos h1]

theorem resolve_lakehouse_missing (w : ResolverWorld) (n : String)
    (h1 : w.lakehouses.status = 200)
    (h2 : w.lakehouses.value.find? (fun lh => lh.displayName == n) = none) :
    get_sql_endpoint_for_lakehouse w n =
      (.err (.notFound n (w.lakehouses.value.map (fun lh => lh.displayName))),
        [.lakehousesList]) := by
  unfold get_sql_endpoint_for_lakehouse
  rw [if_neg (by simp [h1]), h2]

theorem resolve_direct_eq (w : ResolverWorld) (n : String) (lh : ResourceDescriptor)
    (h1 : w.lakehouses.status = 200)
    (h2 : w.lakehouses.value.find? (fun x => x.displayName == n) = some lh)
    (h3 : w.sqlEndpoints.status = 200) :
    get_sql_endpoint_for_lakehouse w n =
      ((match directSelect n (directCandidates w) with
        | some ep => .ok ep.id
        | none => .err (.noMatchingEndpoint n
            ((directCandidates w).map (fun ep => ep.displayName)))),
        [.lakehousesList, .sqlEndpointsList]) := by
  unfold get_sql_endpoint_for_lakehouse
  rw [if_neg (by simp [h1]), h2, if_neg (by simp [h3])]
  cases hsel : directSelect n (directCandidates w) with
  | some ep => rfl
  | none => rfl

theorem resolve_fallback_eq (w : ResolverWorld) (n : String) (lh : ResourceDescriptor)
    (h1 : w.lakehouses.status = 200)
    (h2 : w.lakehouses.value.find? (fun x => x.displayName == n) = some lh)
    (h3 : w.sqlEndpoints.status ≠ 200)
    (h4 : w.items.status = 200) :
    get_sql_endpoint_for_lakehouse w n =
      ((match fallbackSelect n (fallbackCandidates w) with
        | some ep => .ok ep.id
        | none => .err (.noMatchingEndpoint n
            ((fallbackCandidates w).map (fun ep => ep.displayName)))),
        [.lakehousesList, .sqlEndpointsList, .itemsList]) := by
  unfold get_sql_endpoint_for_lakehouse
  rw [if_neg (by simp [h1]), h2, if_pos h3, if_neg (by simp [h4])]
  cases hsel : fallbackSelect n (fallbackCandidates w) with
  | some ep => rfl
  | none => rfl

theorem resolve_items_failed (w : ResolverWorld) (n : String) (lh : ResourceDescriptor)
    (h1 : w.lakehouses.status = 200)
    (h2 : w.lakehouses.value.find? (fun x => x.displayName == n) = some lh)
    (h3 : w.sqlEndpoints.status ≠ 200)
    (h4 : w.items.status ≠ 200) :
    get_sql_endpoint_for_lakehouse w n =
      (.err (.itemsListFailed w.items.status w.items.text),
        [.lakehousesList, .sqlEndpointsList, .itemsList]) := by
  unfold get_sql_endpoint_for_lakehouse
  rw [if_neg (by simp [h1]), h2, if_pos h3, if_pos h4]

theorem refresh_async_eq (text locus : String) (polls : Nat → PollResponse) (m : Int) :
    refresh_sql_endpoint_and_wait ⟨202, text, some locus⟩ polls m =
      pollLoop polls m (2 * m).toNat 0 := rfl

theorem pollLoop_exit (polls : Nat → PollResponse) (m : Int) :
    ∀ (fuel i k : Nat), i ≤ k → k < i + fuel →
      (30 * k : Int) < 60 * m →
      (∀ j, i ≤ j → j < k → (polls j).status = 202) →
      (polls k).status ≠ 202 →
      pollLoop polls m fuel i =
        if (polls k).status = 200 then ⟨.ok true, k + 1, k⟩
        else ⟨.err (.pollFailed (polls k).status (polls k).text), k + 1, k⟩ := by
  intro fuel
  induction fuel with
  | zero => intro i k hik hk; omega
  | succ fuel ih =>
    intro i k hik hfuel hdead h202 hk
    have hguard : (30 * i : Int) < 60 * m := by
      have : (30 * i : Int) ≤ 30 * k := by
        have : (i : Int) ≤ k := by exact_mod_cast hik
        omega
      omega
    rw [pollLoop_succ, if_pos hguard]
    by_cases hieq : i = k
    · subst hieq
      by_cases h200 : (polls i).status = 200
      · rw [if_pos h200, if_pos h200]
      · rw [if_neg h200, if_neg h200, if_neg hk]
    · have hlt : i < k := lt_of_le_of_ne hik hieq
      have hi202 : (polls i).status = 202 := h202 i (le_refl i) hlt
      have hi200 : ¬ (polls i).status = 200 := by rw [hi202]; omega
      rw [if_neg hi200, if_pos hi202]
      exact ih (i + 1) k hlt (by omega) hdead
        (fun j hj hjk => h202 j (by omega) hjk) hk

theorem pollLoop_all202 (polls : Nat → PollResponse) (m : Int)
    (hall : ∀ j, (polls j).status = 202) :
    ∀ (fuel i : Nat), (pollLoop polls m fuel i).result = .err (.refreshTimedOut m) := by
  intro fuel
  induction fuel with
  | zero => intro i; rfl
  | succ fuel ih =>
    intro i
    rw [pollLoop_succ]
    by_cases hg : (30 * i : Int) < 60 * m
    · have h200 : ¬ (polls i).status = 200 := by rw [hall i]; omega
      rw [if_pos hg, if_neg h200, if_pos (hall i)]
      exact ih (i + 1)
    · rw [if_neg hg]

theorem guard_imp_fuel (m : Int) (k : Nat) (h : (30 * k : Int) < 60 * m) :
    k < (2 * m).toNat := by omega

/-!
Claim theorems.
-/

/-- C2: after a 202 trigger with a status location, the status location
is polled while elapsed time is below the deadline; a 200 poll response
terminates with success, a 202 poll response costs one fixed 30-second
sleep before the next poll (so completing at poll `k` takes exactly `k`
sleeps, and the trigger-202 / poll-202 / poll-200 sequence returns
success after exactly one sleep), and a location that never answers 200
within `maxWait = 1` minute fails with `RefreshTimedOut`. -/
theorem claim_C2_poll_protocol (text locus : String) (polls : Nat → PollResponse)
    (m : Int) (k : Nat) :
    ((∀ j, j < k → (polls j).status = 202) → (polls k).status = 200 →
      (30 * k : Int) < 60 * m →
      refresh_sql_endpoint_and_wait ⟨202, text, some locus⟩ polls m =
        ⟨.ok true, k + 1, k⟩) ∧
    ((∀ j, (polls j).status = 202) →
      (refresh_sql_endpoint_and_wait ⟨202, text, some locus⟩ polls m).result =
        .err (.refreshTimedOut m)) ∧
    (refresh_sql_endpoint_and_wait ⟨202, "b", some "u"⟩ seq202200 30 =
      ⟨.ok true, 2, 1⟩) ∧
    (refresh_sql_endpoint_and_wait ⟨202, "b", some "u"⟩ all202 1 =
      ⟨.err (.refreshTimedOut 1), 2, 2⟩) := by
  refine ⟨?_, ?_, by decide, by decide⟩
  · intro h202 h200 hdead
    rw [refresh_async_eq]
    have hk : k < 0 + (2 * m).toNat := by
      have := guard_imp_fuel m k hdead
      omega
    have hexit := pollLoop_exit polls m (2 * m).toNat 0 k (Nat.zero_le k) hk hdead
      (fun j _ hjk => h202 j hjk) (by rw [h200]; omega)
    rw [hexit, if_pos h200]
  · intro hall
    rw [refresh_async_eq]
    exact pollLoop_all202 polls m hall (2 * m).toNat 0

/-- Witness for C2: the trigger-202 / poll-202 / poll-200 scenario at
`maxWait = 30` succeeds after exactly one sleep and two polls. -/
theorem claim_C2_poll_protocol_witness :
    refresh_sql_endpoint_and_wait ⟨202, "b", some "u"⟩ seq202200 30 =
      ⟨.ok true, 2, 1⟩ :=
  (claim_C2_poll_protocol "b" "u" seq202200 30 1).1
    (fun j hj => by
      have hj0 : j = 0 := by omega
      rw [hj0]
      decide)
    rfl (by decide)

/-- C4: a 200 trigger response returns success with zero polls issued,
and a 202 trigger response without a Location header also returns
success immediately with zero polls issued. -/
theorem claim_C4_optimistic_success (text : String) (loc : Option String)
    (polls : Nat → PollResponse) (m : Int) :
    (refresh_sql_endpoint_and_wait ⟨200, text, loc⟩ polls m = ⟨.ok true, 0, 0⟩) ∧
    (refresh_sql_endpoint_and_wait ⟨202, text, none⟩ polls m = ⟨.ok true, 0, 0⟩) :=
  ⟨rfl, rfl⟩

/-- C5: a trigger response with status neither 200 nor 202 fails
immediately with `triggerFailed` carrying the literal status and body,
with zero polls issued; and during polling, the first poll response with
status neither 200 nor 202 fails immediately with `pollFailed` carrying
the literal status and body, with that poll counted exactly once and no
further poll issued (no retry, no transient-error tolerance). -/
theorem claim_C5_no_retry (s : Nat) (text locus : String) (loc : Option String)
    (polls : Nat → PollResponse) (m : Int) (k : Nat) :
    (s ≠ 200 → s ≠ 202 →
      refresh_sql_endpoint_and_wait ⟨s, text, loc⟩ polls m =
        ⟨.err (.triggerFailed s text), 0, 0⟩) ∧
    ((∀ j, j < k → (polls j).status = 202) → (30 * k : Int) < 60 * m →
      (polls k).status ≠ 200 → (polls k).status ≠ 202 →
      refresh_sql_endpoint_and_wait ⟨202, text, some locus⟩ polls m =
        ⟨.err (.pollFailed (polls k).status (polls k).text), k + 1, k⟩) := by
  refine ⟨?_, ?_⟩
  · intro h200 h202
    unfold refresh_sql_endpoint_and_wait
    rw [if_neg (by simpa using h202), if_neg (by simpa using h200)]
  · intro h202 hdead h200k h202k
    rw [refresh_async_eq]
    have hk : k < 0 + (2 * m).toNat := by
      have := guard_imp_fuel m k hdead
      omega
    have hexit := pollLoop_exit polls m (2 * m).toNat 0 k (Nat.zero_le k) hk hdead
      (fun j _ hjk => h202 j hjk) h202k
    rw [hexit, if_neg h200k]

/-- Witness for C5: a 500 trigger fails with `triggerFailed 500` and no
poll; a first poll answering 503 fails with `pollFailed 503` after
exactly one poll and no sleep. -/
theorem claim_C5_no_retry_witness :
    refresh_sql_endpoint_and_wait ⟨500, "boom", none⟩ all202 30 =
      ⟨.err (.triggerFailed 500 "boom"), 0, 0⟩ ∧
    refresh_sql_endpoint_and_wait ⟨202, "b", some "u"⟩ pollFail503 30 =
      ⟨.err (.pollFailed 503 "service unavailable"), 1, 0⟩ := by
  constructor
  · exact (claim_C5_no_retry 500 "boom" "u" none all202 30 0).1 (by decide) (by decide)
  · exact (claim_C5_no_retry 503 "b" "u" none pollFail503 30 0).2
      (fun j hj => absurd hj (Nat.not_lt_zero j)) (by decide) (by decide) (by decide)

/-- C10: with `maxWaitMinutes ≤ 0` and a 202 trigger carrying a
location, the run fails with the timeout error before any status poll is
issued: the deadline check precedes the first poll, so `pollsIssued`
is zero. -/
theorem claim_C10_zero_deadline (m : Int) (text locus : String)
    (polls : Nat → PollResponse) (h : m ≤ 0) :
    refresh_sql_endpoint_and_wait ⟨202, text, some locus⟩ polls m =
      ⟨.err (.refreshTimedOut m), 0, 0⟩ := by
  rw [refresh_async_eq]
  have hz : (2 * m).toNat = 0 := by omega
  rw [hz, pollLoop_zero]

/-- Witness for C10: `maxWaitMinutes = 0` with an unresponsive status
location times out with zero polls issued. -/
theorem claim_C10_zero_deadline_witness :
    refresh_sql_endpoint_and_wait ⟨202, "b", some "u"⟩ all202 0 =
      ⟨.err (.refreshTimedOut 0), 0, 0⟩ :=
  claim_C10_zero_deadline 0 "b" "u" all202 (by decide)

/-- C1: on the fallback (generic items listing) path, the name-match
heuristic runs in strict priority order: the first endpoint in listing
order whose lowered display name contains the lakehouse name and a
marker token wins; only when no endpoint satisfies that rule is the
first case-insensitive exact-equality match selected.  In particular,
with endpoints `["foo - SQL analytics endpoint", "foo"]` for lakehouse
`"foo"`, the first (marker-token) endpoint is selected. -/
theorem claim_C1_fallback_priority (w : ResolverWorld) (n : String)
    (lh : ResourceDescriptor)
    (h1 : w.lakehouses.status = 200)
    (h2 : w.lakehouses.value.find? (fun x => x.displayName == n) = some lh)
    (h3 : w.sqlEndpoints.status ≠ 200)
    (h4 : w.items.status = 200) :
    ((∃ e ∈ fallbackCandidates w, fallbackMarkerMatch n e = true) →
      ∃ e, isFirstMatch (fallbackMarkerMatch n) (fallbackCandidates w) e ∧
        (get_sql_endpoint_for_lakehouse w n).1 = .ok e.id) ∧
    ((∀ e ∈ fallbackCandidates w, fallbackMarkerMatch n e = false) →
      (∃ e ∈ fallbackCandidates w, fallbackExactMatch n e = true) →
      ∃ e, isFirstMatch (fallbackExactMatch n) (fallbackCandidates w) e ∧
        (get_sql_endpoint_for_lakehouse w n).1 = .ok e.id) ∧
    (get_sql_endpoint_for_lakehouse exampleFallbackWorld "foo").1 = .ok "ep1" := by
  have hred := resolve_fallback_eq w n lh h1 h2 h3 h4
  refine ⟨?_, ?_, by decide⟩
  · intro hex
    obtain ⟨a, ha⟩ := find?_of_exists _ _ hex
    have hsel : fallbackSelect n (fallbackCandidates w) = some a := by
      unfold fallbackSelect
      rw [ha]
    refine ⟨a, find?_isFirstMatch _ _ _ ha, ?_⟩
    rw [hred, hsel]
  · intro hnone hex
    have hm : (fallbackCandidates w).find? (fallbackMarkerMatch n) = none :=
      List.find?_eq_none.mpr (fun x hx => by simp [hnone x hx])
    obtain ⟨a, ha⟩ := find?_of_exists _ _ hex
    have hsel : fallbackSelect n (fallbackCandidates w) = some a := by
      unfold fallbackSelect
      rw [hm, ha]
    refine ⟨a, find?_isFirstMatch _ _ _ ha, ?_⟩
    rw [hred, hsel]

/-- Witness for C1: in the example world whose fallback candidates are
`["foo - SQL analytics endpoint", "foo"]`, the marker-token endpoint
`ep1` is selected for lakehouse `"foo"`. -/
theorem claim_C1_fallback_priority_witness :
    (get_sql_endpoint_for_lakehouse exampleFallbackWorld "foo").1 = .ok "ep1" :=
  (claim_C1_fallback_priority exampleFallbackWorld "foo" ⟨"lh1", "foo", "Lakehouse"⟩
    rfl (by decide) (by decide) rfl).2.2

/-- C3: with a successful lakehouses listing, resolution proceeds with
the first resource whose display name equals the lakehouse name exactly
and case-sensitively; when no resource matches, it fails with `notFound`
whose message enumerates every display name in the listing, and when one
matches, a `notFound` failure is impossible. -/
theorem claim_C3_storage_resolution (w : ResolverWorld) (n : String)
    (h1 : w.lakehouses.status = 200) :
    ((∀ lh ∈ w.lakehouses.value, (lh.displayName == n) = false) →
      (get_sql_endpoint_for_lakehouse w n).1 =
        .err (.notFound n (w.lakehouses.value.map (fun lh => lh.displayName)))) ∧
    (∀ lh, w.lakehouses.value.find? (fun x => x.displayName == n) = some lh →
      isFirstMatch (fun x => x.displayName == n) w.lakehouses.value lh ∧
      ∀ names, (get_sql_endpoint_for_lakehouse w n).1 ≠ .err (.notFound n names)) := by
  refine ⟨?_, ?_⟩
  · intro hall
    have h2 : w.lakehouses.value.find? (fun lh => lh.displayName == n) = none :=
      List.find?_eq_none.mpr (fun x hx => by simp [hall x hx])
    rw [resolve_lakehouse_missing w n h1 h2]
  · intro lh hfind
    refine ⟨find?_isFirstMatch _ _ _ hfind, ?_⟩
    intro names
    by_cases hse : w.sqlEndpoints.status = 200
    · rw [resolve_direct_eq w n lh h1 hfind hse]
      cases hsel : directSelect n (directCandidates w) <;> simp
    · by_cases hit : w.items.status = 200
      · rw [resolve_fallback_eq w n lh h1 hfind hse hit]
        cases hsel : fallbackSelect n (fallbackCandidates w) <;> simp
      · rw [resolve_items_failed w n lh h1 hfind hse hit]
        simp

/-- Witness for C3: in a workspace whose only lakehouse is `"bar"`,
resolving `"foo"` fails with `notFound` listing `["bar"]`. -/
theorem claim_C3_storage_resolution_witness :
    (get_sql_endpoint_for_lakehouse exampleNotFoundWorld "foo").1 =
      .err (.notFound "foo" ["bar"]) :=
  (claim_C3_storage_resolution exampleNotFoundWorld "foo" rfl).1 (by decide)

/-- C6: every resolution either selects exactly one endpoint id or
fails: the result is always a single `ok` id or a single error; when
zero candidates satisfy the matching rules of the taken path the
resolution fails with `noMatchingEndpoint`; and any successful selection
is the first match in listing order under the taken path's rules
(first-match-wins is the only tie-break). -/
theorem claim_C6_exactly_one (w : ResolverWorld) (n : String) :
    ((∃ i, (get_sql_endpoint_for_lakehouse w n).1 = .ok i) ∨
      (∃ e, (get_sql_endpoint_for_lakehouse w n).1 = .err e)) ∧
    (∀ i j, (get_sql_endpoint_for_lakehouse w n).1 = .ok i →
      (get_sql_endpoint_for_lakehouse w n).1 = .ok j → i = j) ∧
    (∀ lh, w.lakehouses.status = 200 →
      w.lakehouses.value.find? (fun x => x.displayName == n) = some lh →
      w.sqlEndpoints.status = 200 →
      (∀ e ∈ directCandidates w, directMatch n e = false) →
      (get_sql_endpoint_for_lakehouse w n).1 =
        .err (.noMatchingEndpoint n
          ((directCandidates w).map (fun e => e.displayName)))) ∧
    (∀ lh, w.lakehouses.status = 200 →
      w.lakehouses.value.find? (fun x => x.displayName == n) = some lh →
      w.sqlEndpoints.status ≠ 200 → w.items.status = 200 →
      (∀ e ∈ fallbackCandidates w,
        fallbackMarkerMatch n e = false ∧ fallbackExactMatch n e = false) →
      (get_sql_endpoint_for_lakehouse w n).1 =
        .err (.noMatchingEndpoint n
          ((fallbackCandidates w).map (fun e => e.displayName)))) ∧
    (∀ lh, w.lakehouses.status = 200 →
      w.lakehouses.value.find? (fun x => x.displayName == n) = some lh →
      w.sqlEndpoints.status = 200 →
      ∀ i, (get_sql_endpoint_for_lakehouse w n).1 = .ok i →
        ∃ e, i = e.id ∧ isFirstMatch (directMatch n) (directCandidates w) e) ∧
    (∀ lh, w.lakehouses.status = 200 →
      w.lakehouses.value.find? (fun x => x.displayName == n) = some lh →
      w.sqlEndpoints.status ≠ 200 → w.items.status = 200 →
      ∀ i, (get_sql_endpoint_for_lakehouse w n).1 = .ok i →
        ∃ e, i = e.id ∧
          (isFirstMatch (fallbackMarkerMatch n) (fallbackCandidates w) e ∨
            ((∀ x ∈ fallbackCandidates w, fallbackMarkerMatch n x = false) ∧
              isFirstMatch (fallbackExactMatch n) (fallbackCandidates w) e))) := by
  refine ⟨?_, ?_, ?_, ?_, ?_, ?_⟩
  · cases h : (get_sql_endpoint_for_lakehouse w n).1 with
    | ok i => exact Or.inl ⟨i, rfl⟩
    | err e => exact Or.inr ⟨e, rfl⟩
  · intro i j hi hj
    rw [hi] at hj
    simpa using hj
  · intro lh h1 h2 h3 hall
    have hnone : directSelect n (directCandidates w) = none := by
      unfold directSelect
      exact List.find?_eq_none.mpr (fun x hx => by simp [hall x hx])
    rw [resolve_direct_eq w n lh h1 h2 h3, hnone]
  · intro lh h1 h2 h3 h4 hall
    have hm : (fallbackCandidates w).find? (fallbackMarkerMatch n) = none :=
      List.find?_eq_none.mpr (fun x hx => by simp [(hall x hx).1])
    have he : (fallbackCandidates w).find? (fallbackExactMatch n) = none :=
      List.find?_eq_none.mpr (fun x hx => by simp [(hall x hx).2])
    have hnone : fallbackSelect n (fallbackCandidates w) = none := by
      unfold fallbackSelect
      rw [hm, he]
    rw [resolve_fallback_eq w n lh h1 h2 h3 h4, hnone]
  · intro lh h1 h2 h3 i hok
    rw [resolve_direct_eq w n lh h1 h2 h3] at hok
    cases hsel : directSelect n (directCandidates w) with
    | none => rw [hsel] at hok; simp at hok
    | some e =>
      rw [hsel] at hok
      have hie : i = e.id := by simpa using hok.symm
      exact ⟨e, hie, find?_isFirstMatch _ _ _ hsel⟩
  · intro lh h1 h2 h3 h4 i hok
    rw [resolve_fallback_eq w n lh h1 h2 h3 h4] at hok
    cases hsel : fallbackSelect n (fallbackCandidates w) with
    | none => rw [hsel] at hok; simp at hok
    | some e =>
      rw [hsel] at hok
      have hie : i = e.id := by simpa using hok.symm
      refine ⟨e, hie, ?_⟩
      unfold fallbackSelect at hsel
      cases hm : (fallbackCandidates w).find? (fallbackMarkerMatch n) with
      | some a =>
        rw [hm] at hsel
        have hae : a = e := by simpa using hsel
        subst hae
        exact Or.inl (find?_isFirstMatch _ _ _ hm)
      | none =>
        rw [hm] at hsel
        refine Or.inr ⟨?_, find?_isFirstMatch _ _ _ hsel⟩
        intro x hx
        have := List.find?_eq_none.mp hm x hx
        simpa using this

/-- Witness for C6: in a direct-path world with the two candidates
`["foo sql a", "foo sql b"]`, the selected id `epA` comes from the first
match in listing order. -/
theorem claim_C6_exactly_one_witness :
    ∃ e, "epA" = e.id ∧
      isFirstMatch (directMatch "foo") (directCandidates exampleTieWorld) e :=
  (claim_C6_exactly_one exampleTieWorld "foo").2.2.2.2.1
    ⟨"lh1", "foo", "Lakehouse"⟩ rfl (by decide) rfl "epA" (by decide)

/-- C7: on the direct-listing success path, the relaxed rule applies: an
endpoint is eligible exactly when the lakehouse name is a
case-insensitive substring of its display name, with no marker-token
requirement (case-insensitive exact equality implies the substring
condition, so the exact-equality fallback adds no candidate), and the
first eligible endpoint in listing order is selected. -/
theorem claim_C7_direct_relaxed (w : ResolverWorld) (n : String)
    (lh : ResourceDescriptor)
    (h1 : w.lakehouses.status = 200)
    (h2 : w.lakehouses.value.find? (fun x => x.displayName == n) = some lh)
    (h3 : w.sqlEndpoints.status = 200) :
    ((∃ e ∈ directCandidates w, substringMatch n e = true) →
      ∃ e, isFirstMatch (substringMatch n) (directCandidates w) e ∧
        (get_sql_endpoint_for_lakehouse w n).1 = .ok e.id) ∧
    ((∀ e ∈ directCandidates w, substringMatch n e = false) →
      (get_sql_endpoint_for_lakehouse w n).1 =
        .err (.noMatchingEndpoint n
          ((directCandidates w).map (fun e => e.displayName)))) ∧
    (∀ e, fallbackExactMatch n e = true → substringMatch n e = true) := by
  have hfun : directMatch n = substringMatch n :=
    funext (directMatch_eq_substringMatch n)
  have hds : directSelect n (directCandidates w) =
      (directCandidates w).find? (substringMatch n) := by
    unfold directSelect
    rw [hfun]
  refine ⟨?_, ?_, fallbackExactMatch_imp_substring n⟩
  · intro hex
    obtain ⟨a, ha⟩ := find?_of_exists _ _ hex
    have hsel : directSelect n (directCandidates w) = some a := by
      rw [hds, ha]
    refine ⟨a, find?_isFirstMatch _ _ _ ha, ?_⟩
    rw [resolve_direct_eq w n lh h1 h2 h3, hsel]
  · intro hall
    have hnone : directSelect n (directCandidates w) = none := by
      rw [hds]
      exact List.find?_eq_none.mpr (fun x hx => by simp [hall x hx])
    rw [resolve_direct_eq w n lh h1 h2 h3, hnone]

/-- Witness for C7: on the direct path the endpoint `"foobar"` is
selected for lakehouse `"foo"` by the substring rule alone, although it
carries no marker token and is not equal to `"foo"`. -/
theorem claim_C7_direct_relaxed_witness :
    ∃ e, isFirstMatch (substringMatch "foo") (directCandidates c9DirectWorld) e ∧
      (get_sql_endpoint_for_lakehouse c9DirectWorld "foo").1 = .ok e.id :=
  (claim_C7_direct_relaxed c9DirectWorld "foo" ⟨"lh1", "foo", "Lakehouse"⟩
    rfl (by decide) rfl).1
    ⟨⟨"ep1", "foobar", "SQLEndpoint"⟩, by decide, by decide⟩

/-- C8: when the direct endpoint listing returns non-200 (a handled,
non-fatal condition), resolution falls back to the generic items
listing: exactly one items request is issued, the items are client-side
filtered to `type == "SQLEndpoint"`, the name-match heuristic is applied
to that filtered set, and no listing-failure error is raised for the
direct listing. -/
theorem claim_C8_items_fallback (w : ResolverWorld) (n : String)
    (lh : ResourceDescriptor)
    (h1 : w.lakehouses.status = 200)
    (h2 : w.lakehouses.value.find? (fun x => x.displayName == n) = some lh)
    (h3 : w.sqlEndpoints.status ≠ 200)
    (h4 : w.items.status = 200) :
    ((get_sql_endpoint_for_lakehouse w n).2 =
      [.lakehousesList, .sqlEndpointsList, .itemsList]) ∧
    ((get_sql_endpoint_for_lakehouse w n).2.count .itemsList = 1) ∧
    ((get_sql_endpoint_for_lakehouse w n).1 =
      match fallbackSelect n (fallbackCandidates w) with
      | some ep => .ok ep.id
      | none => .err (.noMatchingEndpoint n
          ((fallbackCandidates w).map (fun e => e.displayName)))) ∧
    (∀ s t, (get_sql_endpoint_for_lakehouse w n).1 ≠ .err (.lakehousesListFailed s t) ∧
      (get_sql_endpoint_for_lakehouse w n).1 ≠ .err (.itemsListFailed s t)) := by
  have hred := resolve_fallback_eq w n lh h1 h2 h3 h4
  refine ⟨by rw [hred], by rw [hred]; rfl, by rw [hred], ?_⟩
  intro s t
  constructor
  · rw [hred]
    cases hsel : fallbackSelect n (fallbackCandidates w) <;> simp
  · rw [hred]
    cases hsel : fallbackSelect n (fallbackCandidates w) <;> simp

/-- Witness for C8: in the example fallback world, the items listing is
consulted exactly once. -/
theorem claim_C8_items_fallback_witness :
    (get_sql_endpoint_for_lakehouse exampleFallbackWorld "foo").2.count .itemsList = 1 :=
  (claim_C8_items_fallback exampleFallbackWorld "foo" ⟨"lh1", "foo", "Lakehouse"⟩
    rfl (by decide) (by decide) rfl).2.1

/-- C9 counterexample: two worlds describing exactly the same resources
(the single endpoint `"foobar"`), one resolved through the direct
listing and one through the fallback, produce different resolutions for
lakehouse `"foo"`: the direct path's relaxed substring rule selects
`"foobar"`, while the fallback path's marker-token and exact-equality
rules both reject it, so resolution from equivalent candidate sets is
NOT equivalent between the two paths. -/
theorem claim_C9_counterexample :
    fallbackCandidates c9FallbackWorld = directCandidates c9DirectWorld ∧
    (get_sql_endpoint_for_lakehouse c9DirectWorld "foo").1 = .ok "ep1" ∧
    (get_sql_endpoint_for_lakehouse c9FallbackWorld "foo").1 =
      .err (.noMatchingEndpoint "foo" ["foobar"]) ∧
    (get_sql_endpoint_for_lakehouse c9FallbackWorld "foo").1 ≠
      (get_sql_endpoint_for_lakehouse c9DirectWorld "foo").1 := by
  decide

/-- C9 amended: when the direct listing returns non-200 the fallback
items-listing path is used exactly once and, when the two APIs describe
the same resources, searches the same candidate list of descriptors —
but each path applies its own matching rule to that list (the fallback
the marker-token heuristic, the direct path the relaxed substring rule),
so the two resolutions are each determined by the shared candidate list
through different rules rather than being equivalent. -/
theorem claim_C9_amended (w : ResolverWorld) (n : String) (lh : ResourceDescriptor)
    (h1 : w.lakehouses.status = 200)
    (h2 : w.lakehouses.value.find? (fun x => x.displayName == n) = some lh)
    (h3 : w.sqlEndpoints.status ≠ 200)
    (h4 : w.items.status = 200) :
    ((get_sql_endpoint_for_lakehouse w n).2.count .itemsList = 1) ∧
    ((get_sql_endpoint_for_lakehouse w n).2.count .sqlEndpointsList = 1) ∧
    ((get_sql_endpoint_for_lakehouse w n).1 =
      match fallbackSelect n (fallbackCandidates w) with
      | some ep => .ok ep.id
      | none => .err (.noMatchingEndpoint n
          ((fallbackCandidates w).map (fun e => e.displayName)))) ∧
    (∀ (w' : ResolverWorld) (lh' : ResourceDescriptor),
      w'.lakehouses.status = 200 →
      w'.lakehouses.value.find? (fun x => x.displayName == n) = some lh' →
      w'.sqlEndpoints.status = 200 →
      directCandidates w' = fallbackCandidates w →
      (get_sql_endpoint_for_lakehouse w' n).1 =
        match directSelect n (fallbackCandidates w) with
        | some ep => .ok ep.id
        | none => .err (.noMatchingEndpoint n
            ((fallbackCandidates w).map (fun e => e.displayName)))) := by
  have hred := resolve_fallback_eq w n lh h1 h2 h3 h4
  refine ⟨by rw [hred]; rfl, by rw [hred]; rfl, by rw [hred], ?_⟩
  intro w' lh' h1' h2' h3' heq
  rw [resolve_direct_eq w' n lh' h1' h2' h3', heq]

/-- Witness for C9's amended statement: applied to the counterexample
worlds, which describe the same single endpoint `"foobar"`. -/
theorem claim_C9_amended_witness :
    (get_sql_endpoint_for_lakehouse c9FallbackWorld "foo").2.count .itemsList = 1 ∧
    (get_sql_endpoint_for_lakehouse c9DirectWorld "foo").1 =
      match directSelect "foo" (fallbackCandidates c9FallbackWorld) with
      | some ep => .ok ep.id
      | none => .err (.noMatchingEndpoint "foo"
          ((fallbackCandidates c9FallbackWorld).map (fun e => e.displayName))) := by
  have h := claim_C9_amended c9FallbackWorld "foo" ⟨"lh1", "foo", "Lakehouse"⟩
    rfl (by decide) (by decide) rfl
  exact ⟨h.1, h.2.2.2 c9DirectWorld ⟨"lh1", "foo", "Lakehouse"⟩
    rfl (by decide) rfl (by decide)⟩
